import Mathlib

/-!
Verification of the Windows pthread compatibility shim
(`src/arch/windows_stub/pthread.cc`) against its design specification.

The file shallowly embeds each function of the shim as a Lean definition:
machine pointers and DWORDs are natural numbers with explicit reduction
modulo 2 ^ 32 where the C++ code truncates; the fatal-assertion channel
(`rassert` / `guarantee_winerr`) is an `Except` value; results of calls
into the opaque Windows API (`CreateThread`, `WaitForSingleObject`,
`SleepConditionVariableCS`) are explicit parameters of the embedded
functions, since the OS is a black box this layer calls into.
-/

namespace WinPthread

/-- Width of a Windows DWORD in bits. -/
def DWORD_WIDTH : Nat := 32

/-- Modulus used when a value is truncated to a DWORD
(`reinterpret_cast<DWORD>` on a 64-bit pointer keeps the low 32 bits). -/
def DWORD_MOD : Nat := 2 ^ DWORD_WIDTH

/-- Windows `errno` value `EINVAL`, the error code the shim returns on
every OS-level failure it translates. -/
def EINVAL : Int := 22

/-- The Windows constant `WAIT_OBJECT_0`, the success result of
`WaitForSingleObject`. -/
def WAIT_OBJECT_0 : Nat := 0

/-! ## The thread-entry thunk (`go` lambda inside `pthread_create`)

The C++ source is

  void* res = f(args);
  // void* may be bigger than DWORD
  rassert(reinterpret_cast<uintptr_t>(res) | 0xFFFFFFFF == 0xFFFFFFFF);
  return reinterpret_cast<DWORD>(res);

In C++ the equality operator binds tighter than bitwise or, so the
asserted expression parses as `res | (0xFFFFFFFF == 0xFFFFFFFF)`,
that is `res | 1`; the embedding reproduces that parse faithfully. -/

/-- The integer value of the expression inside `rassert` in the `go`
thunk, exactly as C++ parses it: `res | (0xFFFFFFFF == 0xFFFFFFFF)`. -/
def goAssertExpr (res : Nat) : Nat :=
  res ||| (if (0xFFFFFFFF : Nat) = 0xFFFFFFFF then 1 else 0)

/-- `rassert` passes iff its argument is nonzero (C truthiness). -/
def goAssertPasses (res : Nat) : Bool :=
  goAssertExpr res != 0

/-- Truncation of the entry function's returned pointer to a DWORD,
`reinterpret_cast<DWORD>(res)`. -/
def goEncode (res : Nat) : Nat := res % DWORD_MOD

/-- The whole tail of the `go` thunk: given the pointer value `res`
returned by the entry function, either the `rassert` fires (`none`) or
the thunk returns the truncated DWORD exit code (`some`). -/
def goRun (res : Nat) : Option Nat :=
  if goAssertPasses res then some (goEncode res) else none

/-- The check the surrounding comment and the spec intend: the returned
pointer value fits in the native 32-bit result width. -/
def fitsInDword (res : Nat) : Bool :=
  res < DWORD_MOD

/-! ## `pthread_create` -/

/-- Observable outcome of one `pthread_create` call: its return code,
the handle stored through the `thread` out-parameter (if any), whether
an OS thread was actually started, and how many diagnostic log calls
(`logERR`) were made. -/
structure CreateResult where
  ret : Int
  threadOut : Option Nat
  threadStarted : Bool
  logCalls : Nat
  deriving Repr, DecidableEq

/-- Embedding of `pthread_create`. `attr` is the (ignored) attribute
argument; `osHandle` is the result of the opaque `CreateThread` call,
`none` when the OS returns a NULL handle (in which case no thread was
created). On failure the shim logs `CreateThread failed: ...` and
returns `EINVAL` without touching `*thread`; on success it stores the
handle and returns 0. -/
def pthread_create (attr : Option Nat) (osHandle : Option Nat) : CreateResult :=
  match osHandle with
  | none => { ret := EINVAL, threadOut := none, threadStarted := false, logCalls := 1 }
  | some h => { ret := 0, threadOut := some h, threadStarted := true, logCalls := 0 }

/-- The `dwStackSize` argument `pthread_create` passes to
`CreateThread`: the literal 0, independent of any attribute. -/
def createThreadStackSize (attr : Option Nat) : Nat := 0

/-! ## `pthread_join` -/

/-- Observable outcome of one `pthread_join` call. -/
structure JoinResult where
  ret : Int
  retval : Option Nat
  logCalls : Nat
  deriving Repr, DecidableEq

/-- Decoding of the DWORD exit code back to a pointer value in
`pthread_join`: `reinterpret_cast<void*>(exit_code)` zero-extends. -/
def joinDecode (exitCode : Nat) : Nat := exitCode

/-- Embedding of `pthread_join`. `waitRes` is the result of the opaque
`WaitForSingleObject` call; `exitCode` the thread's DWORD exit code as
reported by `GetExitCodeThread`; `retvalRequested` whether the caller
passed a non-null `retval` pointer. A wait failure is translated to
`EINVAL` with no log call; on success the decoded exit code is stored
through `retval` when requested. -/
def pthread_join (waitRes : Nat) (exitCode : Nat) (retvalRequested : Bool) : JoinResult :=
  if waitRes ≠ WAIT_OBJECT_0 then
    { ret := EINVAL, retval := none, logCalls := 0 }
  else
    { ret := 0
      retval := if retvalRequested then some (joinDecode exitCode) else none
      logCalls := 0 }

/-! ## `pthread_mutex_init`, `pthread_mutex_destroy`, `pthread_cond_destroy` -/

/-- Outcome of a successful `pthread_mutex_init`. -/
structure MutexInitResult where
  initialized : Bool
  ret : Int
  deriving Repr, DecidableEq

/-- The message of the `rassert` in `pthread_mutex_init`. -/
def mutexInitAssertMsg : String :=
  "this implementation of pthread_mutex_init does not support attributes"

/-- Embedding of `pthread_mutex_init`: `rassert(opts == NULL, ...)`
fails fatally when the attribute argument is non-null; otherwise the
critical section is initialized and 0 is returned. -/
def pthread_mutex_init (opts : Option Nat) : Except String MutexInitResult :=
  match opts with
  | some _ => Except.error mutexInitAssertMsg
  | none => Except.ok { initialized := true, ret := 0 }

/-- Abstract runtime state of a mutex at the moment it is destroyed:
whether some thread currently holds it and how many threads are blocked
in `lock` on it. -/
structure MutexState where
  held : Bool
  waiters : Nat
  deriving Repr, DecidableEq

/-- Abstract runtime state of a condition variable at the moment it is
destroyed: the number of threads blocked in `wait` on it. -/
structure CondState where
  waiters : Nat
  deriving Repr, DecidableEq

/-- Embedding of `pthread_mutex_destroy`: the body is `return 0;`.
The result lives in `Except String` so that the fatal-assertion channel
is representable; the source never uses it and never inspects the
mutex's state. -/
def pthread_mutex_destroy (m : MutexState) : Except String Int :=
  Except.ok 0

/-- Embedding of `pthread_cond_destroy`: the body is `return 0;`. -/
def pthread_cond_destroy (c : CondState) : Except String Int :=
  Except.ok 0

/-! ## `pthread_cond_wait` -/

/-- Observable outcome of one `pthread_cond_wait` call. -/
structure WaitOutcome where
  ret : Int
  logCalls : Nat
  deriving Repr, DecidableEq

/-- Embedding of `pthread_cond_wait`. `osRes` is the result of the
opaque `SleepConditionVariableCS` call; a FALSE result is translated to
`EINVAL` with no log call. -/
def pthread_cond_wait (osRes : Bool) : WaitOutcome :=
  if osRes then { ret := 0, logCalls := 0 } else { ret := EINVAL, logCalls := 0 }

/-! ## `pthread_attr_*` -/

/-- Embedding of `pthread_attr_init`: the body is `return 0;`, the
attribute object is untouched (modelled as an opaque `Nat`). -/
def pthread_attr_init (attr : Nat) : Nat × Int := (attr, 0)

/-- Embedding of `pthread_attr_setstacksize`: the body is `return 0;`,
both the attribute object and the requested stack size are ignored. -/
def pthread_attr_setstacksize (attr : Nat) (stacksize : Nat) : Nat × Int := (attr, 0)

/-- Embedding of `pthread_attr_destroy`: the body is `return 0;`. -/
def pthread_attr_destroy (attr : Nat) : Nat × Int := (attr, 0)

/-! ## `pthread_once`

The guard is a `bool`.  Modelled from the spec: the constants
`PTHREAD_ONCE_INIT` / `PTHREAD_ONCE_COMPLETED` come from the repo's
`windows_stub/pthread.h`, which is not part of the visible sources; per
the spec a guard is created statically in the not-started state and is
mutated exactly once to completed, so not-started is `false` and
completed is `true`. -/

/-- Modelled from the spec: the not-started state of a `OnceGuard`
(the static initializer value of the guard). -/
def PTHREAD_ONCE_INIT : Bool := false

/-- Modelled from the spec: the completed state of a `OnceGuard`. -/
def PTHREAD_ONCE_COMPLETED : Bool := true

/-- One observable event during a `pthread_once` call. -/
inductive OnceEvent where
  | markCompleted
  | initRuns
  deriving Repr, DecidableEq

/-- The sequence of observable events of one `pthread_once` call on a
guard in state `complete`, in execution order.  The source is

  if (*complete == PTHREAD_ONCE_INIT) \x7b
      *complete = PTHREAD_ONCE_COMPLETED;
      init();
  \x7d

so on a first call the store of `PTHREAD_ONCE_COMPLETED` happens before
the initializer is invoked. -/
def pthread_once_trace (complete : Bool) : List OnceEvent :=
  if complete = PTHREAD_ONCE_INIT then
    [OnceEvent.markCompleted, OnceEvent.initRuns]
  else
    []

/-- State-transformer view of one `pthread_once` call: the new guard
state, whether the initializer was invoked, and the return code. -/
def pthread_once (complete : Bool) : Bool × Bool × Int :=
  if complete = PTHREAD_ONCE_INIT then
    (PTHREAD_ONCE_COMPLETED, true, 0)
  else
    (complete, false, 0)

/-- A sequence of `n` consecutive `pthread_once` calls starting from
guard state `complete`: returns the final guard state and the total
number of initializer invocations. -/
def runOnceSeq (complete : Bool) : Nat → Bool × Nat
  | 0 => (complete, 0)
  | n + 1 =>
      let r := pthread_once complete
      let rest := runOnceSeq r.1 n
      (rest.1, (if r.2.1 then 1 else 0) + rest.2)

/-- The claim of the spec on the order of events in `pthread_once`:
every observation of the guard being marked completed comes strictly
after the initializer has run. -/
def marksAfterInit (tr : List OnceEvent) : Prop :=
  ∀ i j, tr.get? i = some OnceEvent.markCompleted →
    tr.get? j = some OnceEvent.initRuns → j < i

/-! ## Mutual exclusion (spec-modelled critical section)

`pthread_mutex_lock` / `pthread_mutex_unlock` are direct pass-throughs
to `EnterCriticalSection` / `LeaveCriticalSection`, opaque OS
primitives outside the repository.  Modelled from the spec: the OS
critical section is a blocking exclusive lock — `lock` suspends the
calling thread until no thread owns the section, then makes the caller
the owner; `unlock` is only taken by the current owner.  The system
state records the OS-level owner together with the set of threads that
have returned from `lock` and not yet called `unlock` (the threads that
"hold" the mutex at the API level). -/

/-- State of the whole lock system: the OS critical section's owner and
the list of threads currently holding the mutex through the API. -/
structure CSState where
  owner : Option Nat
  holding : List Nat
  deriving Repr, DecidableEq

/-- Interleaving small-step semantics of `pthread_mutex_lock` /
`pthread_mutex_unlock` over the spec-modelled critical section: a
`lock t` step completes only when the section is unowned; an
`unlock t` step is taken by a holder `t`, who must own the section. -/
inductive MStep : CSState → CSState → Prop where
  | lock (t : Nat) (s : CSState) (h : s.owner = none) :
      MStep s { owner := some t, holding := t :: s.holding }
  | unlock (t : Nat) (s : CSState) (h1 : s.owner = some t) (h2 : t ∈ s.holding) :
      MStep s { owner := none, holding := s.holding.erase t }

/-- States reachable from the initial state (mutex initialized, no
owner, no holder) by any interleaving of lock and unlock steps. -/
inductive MReach : CSState → Prop where
  | init : MReach { owner := none, holding := [] }
  | step {s s2 : CSState} : MReach s → MStep s s2 → MReach s2

/-- The inductive invariant of the lock system: either nobody owns the
section and nobody holds the mutex, or exactly one thread does both. -/
def csInv (s : CSState) : Prop :=
  (s.owner = none ∧ s.holding = []) ∨
  (∃ t, s.owner = some t ∧ s.holding = [t])

end WinPthread

namespace WinPthread

lemma csInv_init : csInv { owner := none, holding := [] } :=
  Or.inl ⟨rfl, rfl⟩

lemma csInv_step {s s2 : CSState} (hinv : csInv s) (hstep : MStep s s2) : csInv s2 := by
  cases hstep with
  | lock t s h =>
      rcases hinv with ⟨h1, h2⟩ | ⟨u, h1, h2⟩
      · exact Or.inr ⟨t, rfl, by simp [h2]⟩
      · rw [h] at h1; cases h1
  | unlock t s h1 h2 =>
      rcases hinv with ⟨e1, e2⟩ | ⟨u, e1, e2⟩
      · rw [h1] at e1; cases e1
      · refine Or.inl ⟨rfl, ?_⟩
        rw [e1] at h1
        injection h1 with h1
        simp [e2, h1]

lemma csInv_reach {s : CSState} (h : MReach s) : csInv s := by
  induction h with
  | init => exact csInv_init
  | step _ hstep ih => exact csInv_step ih hstep

end WinPthread

namespace WinPthread

lemma lor_one_ne_zero (V : Nat) : V ||| 1 ≠ 0 := by
  intro h
  have ht := congrArg (fun x => Nat.testBit x 0) h
  simp [Nat.testBit_lor] at ht

lemma goAssertPasses_always (V : Nat) : goAssertPasses V = true := by
  simp [goAssertPasses, goAssertExpr, lor_one_ne_zero]

/-- Claim C1: the claim says the `go` thunk's assertion fires for every
entry-function return value with a bit set above the low 32 bits,
before any truncation.  In the code the asserted C++ expression parses
as `res | (0xFFFFFFFF == 0xFFFFFFFF)`, i.e. `res | 1`, which is nonzero
for every `res`: evaluated at the failing input `2 ^ 32` (which does
not fit in a DWORD) the assertion passes and the thunk silently
truncates the value to the exit code 0. -/
theorem C1_assert_vacuous_silent_truncation :
    (∀ res, goAssertPasses res = true) ∧
    fitsInDword (2 ^ 32) = false ∧
    goRun (2 ^ 32) = some 0 := by
  refine ⟨goAssertPasses_always, by decide, ?_⟩
  simp [goRun, goAssertPasses_always, goEncode, DWORD_MOD, DWORD_WIDTH]

/-- Claim C2, counterexample: on a first call (guard in the not-started
state) the trace of `pthread_once` does not place the completed-marking
after the initializer — the claim as stated is false. -/
theorem C2_counterexample :
    ¬ marksAfterInit (pthread_once_trace PTHREAD_ONCE_INIT) := by
  intro h
  have h01 := h 0 1 rfl rfl
  omega

/-- Claim C2, amended: on the first call the guard is marked completed
strictly before the initializer is invoked, so during the initializer's
execution the guard is already observable as completed; a call on a
completed guard produces no events. -/
theorem C2_amended :
    pthread_once_trace PTHREAD_ONCE_INIT
      = [OnceEvent.markCompleted, OnceEvent.initRuns] ∧
    pthread_once_trace PTHREAD_ONCE_COMPLETED = [] :=
  ⟨rfl, rfl⟩

/-- Formalisation of claim C3: each of the three operations logs at
least once whenever it translates an OS failure into a nonzero return
code. -/
def logsBeforeTranslating : Prop :=
  (∀ a, (pthread_create a none).ret ≠ 0 → 1 ≤ (pthread_create a none).logCalls) ∧
  (∀ w e r, (pthread_join w e r).ret ≠ 0 → 1 ≤ (pthread_join w e r).logCalls) ∧
  (∀ b, (pthread_cond_wait b).ret ≠ 0 → 1 ≤ (pthread_cond_wait b).logCalls)

/-- Claim C3, counterexample: `pthread_join` with a failed
`WaitForSingleObject` (result 1, e.g. `WAIT_ABANDONED`) returns
`EINVAL` with zero log calls, refuting the claim. -/
theorem C3_counterexample : ¬ logsBeforeTranslating := by
  intro h
  have hj := h.2.1 1 0 true (by decide)
  simp [pthread_join, WAIT_OBJECT_0] at hj

/-- Claim C3, amended: only `pthread_create` logs the native error
description before translating (one log call, then `EINVAL`);
`pthread_join` and `pthread_cond_wait` translate OS wait failures to
`EINVAL` with no diagnostic log call at all. -/
theorem C3_amended :
    (pthread_create none none).logCalls = 1 ∧
    (pthread_create none none).ret = EINVAL ∧
    (pthread_join 1 0 true).ret = EINVAL ∧
    (pthread_join 1 0 true).logCalls = 0 ∧
    (pthread_cond_wait false).ret = EINVAL ∧
    (pthread_cond_wait false).logCalls = 0 := by
  refine ⟨rfl, rfl, ?_, ?_, rfl, rfl⟩ <;> simp [pthread_join, WAIT_OBJECT_0]

/-- Claim C4: for every value V that fits in the native 32-bit result
width, the `go` thunk's assertion passes and its DWORD encoding of V,
decoded by a successful `pthread_join`, stores exactly V through the
caller's result pointer: the encode/decode round trip is the identity
on such V. -/
theorem C4_join_roundtrip (V : Nat) (h : V < DWORD_MOD) :
    goRun V = some (goEncode V) ∧
    (pthread_join WAIT_OBJECT_0 (goEncode V) true).ret = 0 ∧
    (pthread_join WAIT_OBJECT_0 (goEncode V) true).retval = some V := by
  refine ⟨by simp [goRun, goAssertPasses_always], ?_, ?_⟩ <;>
    simp [pthread_join, WAIT_OBJECT_0, joinDecode, goEncode, Nat.mod_eq_of_lt h]

/-- Witness for C4 at V = 5. -/
theorem C4_witness :
    (5 : Nat) < DWORD_MOD ∧
    (pthread_join WAIT_OBJECT_0 (goEncode 5) true).retval = some 5 :=
  ⟨by decide, (C4_join_roundtrip 5 (by decide)).2.2⟩

lemma runOnceSeq_completed (n : Nat) :
    runOnceSeq PTHREAD_ONCE_COMPLETED n = (PTHREAD_ONCE_COMPLETED, 0) := by
  induction n with
  | zero => rfl
  | succ n ih =>
      have ih2 : runOnceSeq true n = (true, 0) := by
        simpa [PTHREAD_ONCE_COMPLETED] using ih
      simp [runOnceSeq, pthread_once, PTHREAD_ONCE_INIT, PTHREAD_ONCE_COMPLETED, ih2]

/-- Claim C5: in any sequence of at least one `pthread_once` call on a
guard starting in the not-started state, the initializer is invoked
exactly once in total and the guard ends completed; a call on a
completed guard leaves it unchanged and does not invoke the
initializer; every call returns 0. -/
theorem C5_once_only (n : Nat) (h : 1 ≤ n) :
    runOnceSeq PTHREAD_ONCE_INIT n = (PTHREAD_ONCE_COMPLETED, 1) ∧
    (pthread_once PTHREAD_ONCE_COMPLETED).1 = PTHREAD_ONCE_COMPLETED ∧
    (pthread_once PTHREAD_ONCE_COMPLETED).2.1 = false ∧
    (∀ c, (pthread_once c).2.2 = 0) := by
  obtain ⟨m, rfl⟩ : ∃ m, n = m + 1 := ⟨n - 1, by omega⟩
  refine ⟨?_, rfl, rfl, fun c => by cases c <;> rfl⟩
  have hc : runOnceSeq true m = (true, 0) := by
    simpa [PTHREAD_ONCE_COMPLETED] using runOnceSeq_completed m
  simp [runOnceSeq, pthread_once, PTHREAD_ONCE_INIT, PTHREAD_ONCE_COMPLETED, hc]

/-- Witness for C5 with a sequence of three calls. -/
theorem C5_witness :
    1 ≤ 3 ∧ runOnceSeq PTHREAD_ONCE_INIT 3 = (PTHREAD_ONCE_COMPLETED, 1) :=
  ⟨by decide, (C5_once_only 3 (by decide)).1⟩

/-- Claim C6: when `CreateThread` fails (`osHandle = none`) the shim
returns `EINVAL`, no thread is started and the thread out-parameter is
left unwritten; the out-parameter receives exactly the OS handle, so it
is written only on the success path (where the return code is 0). -/
theorem C6_create_failure (attr : Option Nat) (os : Option Nat) :
    (pthread_create attr os).threadOut = os ∧
    (pthread_create attr os).threadStarted = os.isSome ∧
    (pthread_create attr os).ret = (if os.isSome then 0 else EINVAL) := by
  cases os <;> simp [pthread_create]

/-- Claim C7: `pthread_mutex_init` with any non-null attribute argument
fails by assertion; with a null attribute the assertion passes, the
mutex is initialized and 0 is returned. -/
theorem C7_mutex_init_attrs (o : Nat) :
    pthread_mutex_init (some o) = Except.error mutexInitAssertMsg ∧
    pthread_mutex_init none = Except.ok { initialized := true, ret := 0 } :=
  ⟨rfl, rfl⟩

/-- Formalisation of the second half of claim C8: destroying a held
mutex or one with blocked waiters, or a condition variable with
waiters, does not succeed silently with 0. -/
def destroyRejectsBusy : Prop :=
  (∀ m : MutexState, (m.held = true ∨ 0 < m.waiters) →
      pthread_mutex_destroy m ≠ Except.ok 0) ∧
  (∀ c : CondState, 0 < c.waiters → pthread_cond_destroy c ≠ Except.ok 0)

/-- Claim C8, counterexample: destroying a held mutex with five blocked
waiters returns `Except.ok 0` — destruction succeeds silently instead
of being rejected or flagged. -/
theorem C8_counterexample : ¬ destroyRejectsBusy := by
  intro h
  exact h.1 { held := true, waiters := 5 } (Or.inl rfl) rfl

/-- Claim C8, amended: destroying a mutex or condition variable with no
outstanding holders/waiters returns 0, and destroying one that is held
or has blocked waiters also returns 0 silently — both destroy functions
are unconditional no-ops that never reject or assert. -/
theorem C8_amended (m : MutexState) (c : CondState) :
    pthread_mutex_destroy m = Except.ok 0 ∧
    pthread_cond_destroy c = Except.ok 0 :=
  ⟨rfl, rfl⟩

/-- Claim C9: in every state reachable by any interleaving of
`pthread_mutex_lock` / `pthread_mutex_unlock` steps over the
spec-modelled critical section, at most one thread holds the mutex: any
two holders are equal. -/
theorem C9_mutual_exclusion {s : CSState} (h : MReach s) (t1 t2 : Nat)
    (h1 : t1 ∈ s.holding) (h2 : t2 ∈ s.holding) : t1 = t2 := by
  rcases csInv_reach h with ⟨e1, e2⟩ | ⟨u, e1, e2⟩
  · rw [e2] at h1; cases h1
  · rw [e2] at h1 h2
    rw [List.mem_singleton] at h1 h2
    rw [h1, h2]

/-- Witness for C9 in the state reached after thread 7 locks the
mutex. -/
theorem C9_witness :
    MReach { owner := some 7, holding := [7] } ∧ (7 : Nat) = 7 := by
  have hr : MReach { owner := some 7, holding := [7] } :=
    MReach.step MReach.init (MStep.lock 7 { owner := none, holding := [] } rfl)
  exact ⟨hr, C9_mutual_exclusion hr 7 7 (by simp) (by simp)⟩

/-- Claim C10: the three thread-attribute operations always return 0
and leave the attribute object unchanged; `pthread_create` is
insensitive to the attribute argument and always passes stack size 0 to
`CreateThread`, so a requested stack size has no effect. -/
theorem C10_attr_noops (a s : Nat) (attr1 attr2 os : Option Nat) :
    pthread_attr_init a = (a, 0) ∧
    pthread_attr_setstacksize a s = (a, 0) ∧
    pthread_attr_destroy a = (a, 0) ∧
    pthread_create attr1 os = pthread_create attr2 os ∧
    createThreadStackSize attr1 = 0 :=
  ⟨rfl, rfl, rfl, rfl, rfl⟩

end WinPthread
